import Mathlib

/-!
Verification development for the `relabs-tech/devices` magnetometer drivers.

The development shallowly embeds two parts of the repository:

* the AK8963 magnetometer configuration validation and initialization
  sequence specified in `src/mpu9250/MAG_README.md` (the Go bodies of
  `validateMagConfig`, `validateRegisterDebugMagConfig` and
  `validateMagParams` appear verbatim in that document; the fixed
  initialization sequence is given in its §5.2/§9.3), and
* the direct-I2C HMC5983 driver `src/hmc5983/hmc5983.go`
  (`New`, `SenseRaw`, `Sense`, `CountsToMicroTesla10`).

Go `int` fields become `Int`, Go `byte` fields become `Nat` (with `% 256`
wrapping made explicit where overflow matters), Go `int16` values become
`Int` with explicit two's-complement reduction, fallible Go functions
become `Except`, and the exact mathematical value of `float64`
computations is modelled in `ℚ`.
-/

namespace Devices

/-- Opaque failure reported by the external bus transport (bus NACK,
timeout, …); the drivers treat it as an abstract value. -/
inductive TransportError
  | nack
  | timeout
deriving DecidableEq

/-- The transport capability consumed by both drivers: a blocking
register write and a blocking block read (spec §6, `periph.io` `i2c.Dev.Tx`
in `hmc5983.go`). -/
structure Transport where
  write : Nat → Nat → Except TransportError Unit
  readBlock : Nat → Nat → Except TransportError (List Nat)

/-- Configuration record, from the `Config` struct of MAG_README.md §3.3.
Go `int` fields are `Int` (the debug overrides use `-1` for "unset"),
Go `byte` fields are `Nat`. -/
structure Config where
  magWriteDelayMS : Int
  magReadDelayMS : Int
  magScale : Nat
  magMode : Nat
  magSampleRateDivider : Nat
  registerDebugMagWriteDelay : Int
  registerDebugMagReadDelay : Int
  registerDebugMagUnsafeMode : Bool
deriving DecidableEq

/-- The distinct `fmt.Errorf` failures of the validators in
MAG_README.md §6.1–§6.3, one constructor per message. -/
inductive ConfigError
  | writeDelayRange (got : Int)
  | readDelayRange (got : Int)
  | scaleInvalid (got : Nat)
  | modeInvalid (got : Nat)
  | srdRange (got : Nat)
  | debugWriteDelayRange (got : Int)
  | debugWriteDelayFloor
  | debugReadDelayRange (got : Int)
deriving DecidableEq

/-- The keys of the `validModes` map of `validateMagConfig`
(MAG_README.md lines 472–480), in source order. -/
def validModes : List Nat := [0x00, 0x01, 0x02, 0x06, 0x04, 0x08, 0x0F]

/-- Translation of `validateMagConfig` (MAG_README.md lines 449–493):
the checks in source order; the sub-50ms branch only logs a warning
(see `magWriteDelayWarning`) and is not an error path. -/
def validateMagConfig (cfg : Config) : Except ConfigError Unit :=
  if cfg.magWriteDelayMS < 1 ∨ 200 < cfg.magWriteDelayMS then
    Except.error (ConfigError.writeDelayRange cfg.magWriteDelayMS)
  else if cfg.magReadDelayMS < 1 ∨ 50 < cfg.magReadDelayMS then
    Except.error (ConfigError.readDelayRange cfg.magReadDelayMS)
  else if 1 < cfg.magScale then
    Except.error (ConfigError.scaleInvalid cfg.magScale)
  else if cfg.magMode ∉ validModes then
    Except.error (ConfigError.modeInvalid cfg.magMode)
  else if 15 < cfg.magSampleRateDivider then
    Except.error (ConfigError.srdRange cfg.magSampleRateDivider)
  else Except.ok ()

/-- The `log.Printf("WARNING: …below recommended 50ms")` branch of
`validateMagConfig` (MAG_README.md lines 455–458): it fires exactly when
the write delay passed the range check but is below 50 ms. -/
def magWriteDelayWarning (cfg : Config) : Bool :=
  decide (1 ≤ cfg.magWriteDelayMS ∧ cfg.magWriteDelayMS < 50)

/-- The read-delay block of `validateRegisterDebugMagConfig`
(MAG_README.md lines 520–526). -/
def validateRegisterDebugMagReadPart (cfg : Config) : Except ConfigError Unit :=
  if 0 < cfg.registerDebugMagReadDelay then
    if cfg.registerDebugMagReadDelay < 1 ∨ 100 < cfg.registerDebugMagReadDelay then
      Except.error (ConfigError.debugReadDelayRange cfg.registerDebugMagReadDelay)
    else Except.ok ()
  else Except.ok ()

/-- Translation of `validateRegisterDebugMagConfig`
(MAG_README.md lines 499–529): an override is considered set when it is
`> 0`; a set write override is range-checked against `[1,500]` and, below
50 ms, requires the unsafe flag; a set read override is range-checked
against `[1,100]`. -/
def validateRegisterDebugMagConfig (cfg : Config) : Except ConfigError Unit :=
  if 0 < cfg.registerDebugMagWriteDelay then
    if cfg.registerDebugMagWriteDelay < 1 ∨ 500 < cfg.registerDebugMagWriteDelay then
      Except.error (ConfigError.debugWriteDelayRange cfg.registerDebugMagWriteDelay)
    else if cfg.registerDebugMagWriteDelay < 50 ∧ cfg.registerDebugMagUnsafeMode = false then
      Except.error ConfigError.debugWriteDelayFloor
    else validateRegisterDebugMagReadPart cfg
  else validateRegisterDebugMagReadPart cfg

/-- True when an `Except` result is an error (the validators' failure
observable). -/
def isConfigError (r : Except ConfigError Unit) : Bool :=
  match r with
  | Except.error _ => true
  | Except.ok _ => false

/-- States of the initialization sequencer (spec §4.2). -/
inductive SeqState
  | Idle
  | Reset
  | PowerDown1
  | FuseMode
  | ReadCalibration
  | PowerDown2
  | SetMode
  | ConfigureContinuousRead
  | Ready
  | Failed
deriving DecidableEq

/-- Kind of settle wait following a sequencer action: after a register
write the sequencer waits `writeDelay`, after a relayed read it waits
`readDelay` (MAG_README.md §9.3). -/
inductive WaitKind
  | write
  | read
deriving DecidableEq

/-- Observable interaction of the sequencer with the transport and the
clock: a register write, a relayed block read, or a blocking settle wait
of the given kind and duration in milliseconds. -/
inductive Event
  | write (reg val : Nat)
  | read (reg len : Nat)
  | wait (k : WaitKind) (ms : Nat)
deriving DecidableEq

/-- True for a write-type settle wait event. -/
def isWriteWait (e : Event) : Bool :=
  match e with
  | Event.wait WaitKind.write _ => true
  | _ => false

/-- True for a read-type settle wait event. -/
def isReadWait (e : Event) : Bool :=
  match e with
  | Event.wait WaitKind.read _ => true
  | _ => false

/-- The parameters of `InitMag` after resolution (spec §3): delays in
milliseconds, resolution selector, operating mode and sample-rate
divider. -/
structure EffectiveParameters where
  writeDelay : Nat
  readDelay : Nat
  scale : Nat
  mode : Nat
  sampleRateDivider : Nat
deriving DecidableEq

/-- AK8963 control register (CNTL1), written in the power-down,
fuse-mode and set-mode steps (MAG_README.md §9.3). -/
def regMagCNTL : Nat := 0x0A

/-- AK8963 reset register (CNTL2), written in the reset step
(MAG_README.md §5.3). -/
def regMagCNTL2 : Nat := 0x0B

/-- AK8963 factory sensitivity adjustment region (ASAX..ASAZ), read in
the read-calibration step. -/
def regMagASAX : Nat := 0x10

/-- Host relay (I2C master slave-0 control) register programmed by the
configure-continuous-read step. -/
def regI2CSlv0Ctrl : Nat := 0x27

/-- One sequencer action: a magnetometer register write or a relayed
block read. -/
inductive StepAction
  | writeReg (reg val : Nat)
  | readBlock (reg len : Nat)
deriving DecidableEq

/-- One step of the fixed initialization sequence: the state it belongs
to, its transport action, and the settle wait that follows it. -/
structure StepSpec where
  state : SeqState
  action : StepAction
  waitKind : WaitKind
  waitMs : Nat
deriving DecidableEq

/-- Modelled from the spec: the fixed step list of `InitMag`
(the Go driver body `mpu9250/mpu9250.go` is not part of src/; the
sequence is specified by MAG_README.md §9.3 "Go Fixed Sequence (TARGET)"
lines 776–785 and §5.2, and spec §4.2): reset via CNTL2, power down,
fuse-ROM mode, relay-read of the 3 ASA trim bytes, power down again,
measurement mode `(scale << 4) | mode`, then programming of the host
relay at the configured sample-rate divider.  Every write is followed by
a `writeDelay` wait, the read by a `readDelay` wait. -/
def initSteps (p : EffectiveParameters) : List StepSpec :=
  [⟨SeqState.Reset, StepAction.writeReg regMagCNTL2 0x01, WaitKind.write, p.writeDelay⟩,
   ⟨SeqState.PowerDown1, StepAction.writeReg regMagCNTL 0x00, WaitKind.write, p.writeDelay⟩,
   ⟨SeqState.FuseMode, StepAction.writeReg regMagCNTL 0x0F, WaitKind.write, p.writeDelay⟩,
   ⟨SeqState.ReadCalibration, StepAction.readBlock regMagASAX 3, WaitKind.read, p.readDelay⟩,
   ⟨SeqState.PowerDown2, StepAction.writeReg regMagCNTL 0x00, WaitKind.write, p.writeDelay⟩,
   ⟨SeqState.SetMode, StepAction.writeReg regMagCNTL (Nat.lor (p.scale <<< 4) p.mode),
      WaitKind.write, p.writeDelay⟩,
   ⟨SeqState.ConfigureContinuousRead,
      StepAction.writeReg regI2CSlv0Ctrl (Nat.lor 0x80 p.sampleRateDivider),
      WaitKind.write, p.writeDelay⟩]

/-- Per-axis factory sensitivity adjustment from one trim byte
(spec §3: `adjustment = (trimByte − 128) / 256 + 1`), as an exact
rational. -/
def asaAdjustment (t : Nat) : ℚ :=
  ((t : ℚ) - 128) / 256 + 1

/-- The calibration values produced by a successful initialization:
one adjustment factor per axis (spec §3 `CalibrationValues`). -/
structure MagCal where
  x : ℚ
  y : ℚ
  z : ℚ
deriving DecidableEq

/-- Failure of `InitMag`: a parameter validation error raised before any
transport call, or a transport failure tagged with the sequencer state
in which it occurred (spec §7 `InitError{step, cause}`). -/
inductive MagError
  | config (e : ConfigError)
  | step (s : SeqState) (e : TransportError)
deriving DecidableEq

/-- Modelled from the spec: run of the fixed step list against a
transport.  Each successful write/read appends its event and the
following settle wait; a transport failure stops the run at once (no
wait after the failing call, remaining steps skipped) and is tagged with
the failing state; the bytes of successful block reads are collected. -/
def runSteps (t : Transport) : List StepSpec → List Event × Except (SeqState × TransportError) (List Nat)
  | [] => ([], Except.ok [])
  | s :: rest =>
    match s.action with
    | StepAction.writeReg r v =>
      match t.write r v with
      | Except.error e => ([Event.write r v], Except.error (s.state, e))
      | Except.ok _ =>
        let pr := runSteps t rest
        (Event.write r v :: Event.wait s.waitKind s.waitMs :: pr.1, pr.2)
    | StepAction.readBlock r n =>
      match t.readBlock r n with
      | Except.error e => ([Event.read r n], Except.error (s.state, e))
      | Except.ok bs =>
        let pr := runSteps t rest
        (Event.read r n :: Event.wait s.waitKind s.waitMs :: pr.1,
         Except.map (fun cs => bs ++ cs) pr.2)

/-- Translation of `validateMagParams` (MAG_README.md lines 537–557):
runtime validation of the `InitMag` parameters, raised before any
transport call. -/
def validateMagParams (writeDelay readDelay scale mode : Nat) : Except ConfigError Unit :=
  if writeDelay < 1 then
    Except.error (ConfigError.writeDelayRange writeDelay)
  else if readDelay < 1 then
    Except.error (ConfigError.readDelayRange readDelay)
  else if 1 < scale then
    Except.error (ConfigError.scaleInvalid scale)
  else if mode ∉ validModes then
    Except.error (ConfigError.modeInvalid mode)
  else Except.ok ()

/-- Modelled from the spec: `InitMag` (MAG_README.md §4.1/§11.2; the Go
driver body is not in src/).  Validates its parameters, then drives the
fixed sequence; on success the three collected trim bytes become the
per-axis calibration values; a transport failure surfaces tagged with
the failing state.  Returns the full event trace alongside the result. -/
def initMag (t : Transport) (p : EffectiveParameters) : List Event × Except MagError MagCal :=
  match validateMagParams p.writeDelay p.readDelay p.scale p.mode with
  | Except.error e => ([], Except.error (MagError.config e))
  | Except.ok _ =>
    let pr := runSteps t (initSteps p)
    (pr.1,
     match pr.2 with
     | Except.error se => Except.error (MagError.step se.1 se.2)
     | Except.ok bs =>
       Except.ok ⟨asaAdjustment (bs.getD 0 0), asaAdjustment (bs.getD 1 0),
                  asaAdjustment (bs.getD 2 0)⟩)

/-- Terminal sequencer state of a result: `Ready` on success, `Failed`
on a transport failure, still `Idle` when validation rejected the
parameters before any transport call (spec §4.2). -/
def finalState (r : Except MagError MagCal) : SeqState :=
  match r with
  | Except.ok _ => SeqState.Ready
  | Except.error (MagError.config _) => SeqState.Idle
  | Except.error (MagError.step _ _) => SeqState.Failed

/-- A mock transport: every write succeeds, every block read returns the
first `n` bytes of the given list (spec §8 "mock transport"). -/
def mockTransport (asa : List Nat) : Transport :=
  ⟨fun _ _ => Except.ok (), fun _ n => Except.ok (asa.take n)⟩

/-- The full pipeline of spec §2: configuration validation, then the
initialization sequencer on the validated parameters.  A validation
error is raised before any transport call, so the event trace is
empty. -/
def initializeWithConfig (t : Transport) (cfg : Config) : List Event × Except MagError MagCal :=
  match validateMagConfig cfg with
  | Except.error e => ([], Except.error (MagError.config e))
  | Except.ok _ =>
    initMag t ⟨cfg.magWriteDelayMS.toNat, cfg.magReadDelayMS.toNat, cfg.magScale,
               cfg.magMode, cfg.magSampleRateDivider⟩

/-- HMC5983 register map (`hmc5983.go` lines 15–24). -/
def regCRA : Nat := 0x00

/-- HMC5983 gain configuration register. -/
def regCRB : Nat := 0x01

/-- HMC5983 mode register. -/
def regMODE : Nat := 0x02

/-- HMC5983 data register block start; wire order is X MSB, X LSB,
Z MSB, Z LSB, Y MSB, Y LSB. -/
def regDATA : Nat := 0x03

/-- HMC5983 status register. -/
def regSTATUS : Nat := 0x09

/-- Default HMC5983 I2C address (`hmc5983.go` line 27). -/
def hmcDefaultAddr : Nat := 0x1E

/-- Initialization options of the HMC5983 driver (`Opts`,
`hmc5983.go` lines 40–46). -/
structure Opts where
  odrHz : Int
  avgSamples : Int
  gainCode : Int
  mode : String
  addr : Nat
deriving DecidableEq

/-- Typical LSB/Gauss per gain code, X/Y axes (`gainXY` in `New`,
`hmc5983.go` line 67). -/
def gainXY : List Int := [1370, 1090, 820, 660, 440, 390, 330, 230]

/-- Typical LSB/Gauss per gain code, Z axis (`gainZ` in `New`,
`hmc5983.go` line 68). -/
def gainZ : List Int := [1330, 980, 660, 600, 400, 355, 295, 205]

/-- The gain-code fallback in `New` (`hmc5983.go` lines 69–72): codes
outside `0..7` are silently replaced by `1`. -/
def resolveGainCode (gc : Int) : Int :=
  if gc < 0 ∨ 7 < gc then 1 else gc

/-- The CRA byte computed by `New` (`hmc5983.go` lines 81–106):
averaging bits 6..5, output-data-rate bits 4..2, normal bias. -/
def craFor (avgSamples odrHz : Int) : Nat :=
  let avgBits : Nat :=
    if avgSamples = 8 then 0b11 <<< 5
    else if avgSamples = 4 then 0b10 <<< 5
    else if avgSamples = 2 then 0b01 <<< 5
    else 0b00 <<< 5
  let odrBits : Nat :=
    if odrHz = 75 then 0b110 <<< 2
    else if odrHz = 30 then 0b100 <<< 2
    else if odrHz = 15 then 0b011 <<< 2
    else if odrHz = 7 then 0b010 <<< 2
    else if odrHz = 3 then 0b001 <<< 2
    else 0b011 <<< 2
  Nat.lor avgBits odrBits

/-- The device value built by `New` (`Dev`, `hmc5983.go` lines 53–57):
address and the per-axis LSB/Gauss constants selected by the resolved
gain code. -/
structure HDev where
  addr : Nat
  lsbPerGaXY : Int
  lsbPerGaZ : Int
deriving DecidableEq

/-- Translation of `New` (`hmc5983.go` lines 60–128): address
defaulting, gain-code fallback, table lookup, then the CRA, CRB and
MODE register writes in order (each may fail with the transport error);
the 10 ms settle sleep ends a successful construction.  Returns the
write trace alongside the result. -/
def newDev (t : Transport) (opts : Opts) : List Event × Except TransportError HDev :=
  let addr := if opts.addr = 0 then hmcDefaultAddr else opts.addr
  let gc := resolveGainCode opts.gainCode
  let d : HDev := ⟨addr, gainXY.getD gc.toNat 0, gainZ.getD gc.toNat 0⟩
  let cra := craFor opts.avgSamples opts.odrHz
  let crb := gc.toNat <<< 5
  let modeByte : Nat := if opts.mode = "single" then 0x01 else 0x00
  match t.write regCRA cra with
  | Except.error e => ([Event.write regCRA cra], Except.error e)
  | Except.ok _ =>
    match t.write regCRB crb with
    | Except.error e => ([Event.write regCRA cra, Event.write regCRB crb], Except.error e)
    | Except.ok _ =>
      match t.write regMODE modeByte with
      | Except.error e =>
        ([Event.write regCRA cra, Event.write regCRB crb, Event.write regMODE modeByte],
         Except.error e)
      | Except.ok _ =>
        ([Event.write regCRA cra, Event.write regCRB crb, Event.write regMODE modeByte,
          Event.wait WaitKind.write 10],
         Except.ok d)

/-- Two's-complement reinterpretation of the low 16 bits of a natural
number, i.e. the value of a Go `int16` holding that bit pattern. -/
def toInt16 (u : Nat) : Int :=
  if u % 65536 < 32768 then ((u % 65536 : Nat) : Int) else ((u % 65536 : Nat) : Int) - 65536

/-- The Go expression `int16(hi)<<8 | int16(lo)` of `SenseRaw`
(`hmc5983.go` lines 145–147): the byte `hi` is widened, shifted left by
8 (Go discards the high bits, hence the `% 65536`), or-ed with the low
byte, and the 16-bit pattern read back as a signed value. -/
def beInt16 (hi lo : Nat) : Int :=
  toInt16 (Nat.lor (((hi % 256) <<< 8) % 65536) (lo % 256))

/-- The reassembly performed by `SenseRaw` (`hmc5983.go` lines 140–149)
on the 6-byte data block: the device's X,Z,Y wire order becomes the
X,Y,Z return order. -/
def senseRawDecode (data : List Nat) : Int × Int × Int :=
  let x := beInt16 (data.getD 0 0) (data.getD 1 0)
  let z := beInt16 (data.getD 2 0) (data.getD 3 0)
  let y := beInt16 (data.getD 4 0) (data.getD 5 0)
  (x, y, z)

/-- Translation of `SenseRaw` (`hmc5983.go` lines 140–149): a 6-byte
block read at `regDATA`, decoded into signed counts. -/
def senseRaw (t : Transport) : Except TransportError (Int × Int × Int) :=
  Except.map senseRawDecode (t.readBlock regDATA 6)

/-- Specification-level big-endian signed 16-bit interpretation of two
bytes: the unsigned big-endian value, shifted into `[-32768, 32767]` by
two's complement. -/
def int16OfBytesBE (hi lo : Nat) : Int :=
  let u := (hi % 256) * 256 + lo % 256
  if u < 32768 then (u : Int) else (u : Int) - 65536

/-- Exact mathematical value of the `float64` scaling in `Sense` and
`CountsToMicroTesla10` (`hmc5983.go` lines 161–166 and 196–199):
`counts / lsbPerGauss * 1000`, i.e. Gauss converted to µT×10.  The Go
code computes this in `float64` before narrowing to `int16`; the `ℚ`
value is the exact result the narrowing is applied to (up to the
rounding of `float64`, which is irrelevant to the range questions
settled here). -/
def countsToMicroTesla10Exact (counts lsbPerGauss : Int) : ℚ :=
  ((counts : ℚ) / (lsbPerGauss : ℚ)) * 1000

/-- Exact scaled sample of `Sense` (`hmc5983.go` lines 152–168): X and Y
use the XY gain constant, Z its own. -/
def senseExact (raw : Int × Int × Int) (d : HDev) : ℚ × ℚ × ℚ :=
  (countsToMicroTesla10Exact raw.1 d.lsbPerGaXY,
   countsToMicroTesla10Exact raw.2.1 d.lsbPerGaXY,
   countsToMicroTesla10Exact raw.2.2 d.lsbPerGaZ)

/-- A rational value can be narrowed to the `int16` output (Go's
float-to-int conversion truncates toward zero, and is only defined when
the truncated value fits the target type): the truncation toward zero
lies in `[-32768, 32767]` exactly when the value is in
`(-32769, 32768)`. -/
def fitsInt16 (q : ℚ) : Prop :=
  -32769 < q ∧ q < 32768

/-- Modelled from the spec: the scaling engine of spec §4.4 for the
passthrough magnetometer (its Go driver body is not in src/):
`scaledAxis = rawAxis × calibrationAxis × gainConstant`. -/
def scaledAxisSpec (raw : Int) (cal gain : ℚ) : ℚ :=
  (raw : ℚ) * cal * gain

/-! ## Helper lemmas -/

/-- `validateMagParams` accepts positive delays, a scale in `{0,1}` and a
valid mode. -/
lemma validateMagParams_ok (wd rd scale mode : Nat) (h1 : 1 ≤ wd) (h2 : 1 ≤ rd)
    (hs : scale ≤ 1) (hm : mode ∈ validModes) :
    validateMagParams wd rd scale mode = Except.ok () := by
  unfold validateMagParams
  rw [if_neg (by omega), if_neg (by omega), if_neg (by omega), if_neg (by simp [hm])]

/-- Or-ing a byte into the zero low bits of a value shifted by one byte
is addition. -/
lemma lor_mul256_add (a b : Nat) (hb : b < 256) : Nat.lor (a * 256) b = a * 256 + b := by
  apply Nat.eq_of_testBit_eq
  intro i
  have hor : Nat.lor (a * 256) b = a * 256 ||| b := rfl
  rw [hor, Nat.testBit_lor]
  rcases Nat.lt_or_ge i 8 with hi | hi
  · have h1 : (a * 256).testBit i = false := by
      have hsh : a * 256 = a <<< 8 := by rw [Nat.shiftLeft_eq]
      rw [hsh, Nat.testBit_shiftLeft]
      simp only [ge_iff_le, Bool.and_eq_false_imp, decide_eq_true_eq]
      intro hc
      omega
    have h2 : (a * 256 + b).testBit i = b.testBit i := by
      have hm : (a * 256 + b) % 2 ^ 8 = b := by
        have h256 : (2 : Nat) ^ 8 = 256 := by norm_num
        rw [h256]
        omega
      calc (a * 256 + b).testBit i
          = ((a * 256 + b) % 2 ^ 8).testBit i := by
            rw [Nat.testBit_mod_two_pow]
            simp [hi]
        _ = b.testBit i := by rw [hm]
    rw [h1, h2]
    simp
  · obtain ⟨j, rfl⟩ : ∃ j, i = 8 + j := ⟨i - 8, by omega⟩
    have hb' : b.testBit (8 + j) = false := by
      apply Nat.testBit_eq_false_of_lt
      calc b < 256 := hb
        _ = 2 ^ 8 := by norm_num
        _ ≤ 2 ^ (8 + j) := Nat.pow_le_pow_right (by norm_num) (by omega)
    have e1 : (a * 256).testBit (8 + j) = a.testBit j := by
      rw [← Nat.testBit_shiftRight]
      congr 1
      rw [Nat.shiftRight_eq_div_pow]
      have h256 : (2 : Nat) ^ 8 = 256 := by norm_num
      rw [h256, Nat.mul_div_cancel _ (by norm_num)]
    have e2 : (a * 256 + b).testBit (8 + j) = a.testBit j := by
      rw [← Nat.testBit_shiftRight]
      congr 1
      rw [Nat.shiftRight_eq_div_pow]
      have h256 : (2 : Nat) ^ 8 = 256 := by norm_num
      rw [h256]
      omega
    rw [hb', e1, e2]
    simp

/-- The Go bit-level reassembly of two bytes agrees with the arithmetic
big-endian signed 16-bit interpretation. -/
lemma beInt16_eq (hi lo : Nat) : beInt16 hi lo = int16OfBytesBE hi lo := by
  unfold beInt16 int16OfBytesBE toInt16
  have ha : hi % 256 < 256 := Nat.mod_lt _ (by norm_num)
  have hb : lo % 256 < 256 := Nat.mod_lt _ (by norm_num)
  have h1 : (hi % 256) <<< 8 = hi % 256 * 256 := by rw [Nat.shiftLeft_eq]
  have h2 : hi % 256 * 256 % 65536 = hi % 256 * 256 := Nat.mod_eq_of_lt (by omega)
  have h3 : (hi % 256 * 256 + lo % 256) % 65536 = hi % 256 * 256 + lo % 256 :=
    Nat.mod_eq_of_lt (by omega)
  rw [h1, h2, lor_mul256_add _ _ hb, h3]

/-! ## Claims -/

/-- C1: for every `writeDelay ∈ [50ms, 200ms]` and every valid `scale`
and `mode`, a full run of the initialization sequencer against a mock
transport produces exactly the fixed event trace of §4.2 — so exactly 6
write-type settle waits of `writeDelay` each and exactly 1 read-type
settle wait of `readDelay`, in the fixed step order Reset, PowerDown₁,
FuseMode, ReadCalibration, PowerDown₂, SetMode,
ConfigureContinuousRead — and ends in `Ready`.  The sequencer is a
function of its parameters, so no other order is possible. -/
theorem c1_full_init_fixed_waits (wd rd scale mode srd : Nat) (asa : List Nat)
    (h1 : 50 ≤ wd) (h2 : wd ≤ 200) (h3 : 1 ≤ rd) (hs : scale ≤ 1) (hm : mode ∈ validModes) :
    ((initMag (mockTransport asa) ⟨wd, rd, scale, mode, srd⟩).1 =
      [Event.write regMagCNTL2 0x01, Event.wait WaitKind.write wd,
       Event.write regMagCNTL 0x00, Event.wait WaitKind.write wd,
       Event.write regMagCNTL 0x0F, Event.wait WaitKind.write wd,
       Event.read regMagASAX 3, Event.wait WaitKind.read rd,
       Event.write regMagCNTL 0x00, Event.wait WaitKind.write wd,
       Event.write regMagCNTL (Nat.lor (scale <<< 4) mode), Event.wait WaitKind.write wd,
       Event.write regI2CSlv0Ctrl (Nat.lor 0x80 srd), Event.wait WaitKind.write wd])
    ∧ ((initMag (mockTransport asa) ⟨wd, rd, scale, mode, srd⟩).1.filter isWriteWait =
      List.replicate 6 (Event.wait WaitKind.write wd))
    ∧ ((initMag (mockTransport asa) ⟨wd, rd, scale, mode, srd⟩).1.filter isReadWait =
      [Event.wait WaitKind.read rd])
    ∧ ((initSteps ⟨wd, rd, scale, mode, srd⟩).map StepSpec.state =
      [SeqState.Reset, SeqState.PowerDown1, SeqState.FuseMode, SeqState.ReadCalibration,
       SeqState.PowerDown2, SeqState.SetMode, SeqState.ConfigureContinuousRead])
    ∧ finalState (initMag (mockTransport asa) ⟨wd, rd, scale, mode, srd⟩).2 = SeqState.Ready := by
  have hv := validateMagParams_ok wd rd scale mode (by omega) h3 hs hm
  refine ⟨?_, ?_, ?_, ?_, ?_⟩ <;>
    simp [initMag, hv, runSteps, initSteps, mockTransport, isWriteWait, isReadWait,
      finalState, List.filter, List.replicate, Except.map]

/-- Witness for C1 at `writeDelay = 50`, `readDelay = 2`, `scale = 1`,
`mode = 0x06`. -/
theorem c1_full_init_fixed_waits_witness :
    finalState (initMag (mockTransport [128, 128, 128]) ⟨50, 2, 1, 6, 1⟩).2 = SeqState.Ready :=
  (c1_full_init_fixed_waits 50 2 1 6 1 [128, 128, 128] (by norm_num) (by norm_num)
    (by norm_num) (by norm_num) (by decide)).2.2.2.2

/-- C2: for every trim byte `t ≤ 255` the per-axis calibration
adjustment computed during initialization is `(t − 128) / 256 + 1`; in
particular `128 ↦ 1`, `0 ↦ 0.5`, `255 ↦ 1.49609375`, and every
adjustment lies in `[0.5, 1.49609375]`. -/
theorem c2_asa_adjustment_range (t : Nat) (ht : t ≤ 255) :
    asaAdjustment t = ((t : ℚ) - 128) / 256 + 1
    ∧ asaAdjustment 128 = 1
    ∧ asaAdjustment 0 = 0.5
    ∧ asaAdjustment 255 = 1.49609375
    ∧ 0.5 ≤ asaAdjustment t
    ∧ asaAdjustment t ≤ 1.49609375
    ∧ (∀ t1 t2 t3 : Nat,
        (initMag (mockTransport [t1, t2, t3]) ⟨50, 2, 1, 6, 1⟩).2 =
          Except.ok ⟨asaAdjustment t1, asaAdjustment t2, asaAdjustment t3⟩) := by
  have htq : (t : ℚ) ≤ 255 := by exact_mod_cast ht
  have ht0 : (0 : ℚ) ≤ (t : ℚ) := Nat.cast_nonneg t
  refine ⟨rfl, by norm_num [asaAdjustment], by norm_num [asaAdjustment],
    by norm_num [asaAdjustment], ?_, ?_, ?_⟩
  · unfold asaAdjustment
    norm_num
    linarith
  · unfold asaAdjustment
    norm_num
    linarith
  · intro t1 t2 t3
    have hv : validateMagParams 50 2 1 6 = Except.ok () := rfl
    simp [initMag, hv, runSteps, initSteps, mockTransport, Except.map]

/-- Witness for C2 at trim byte `0`. -/
theorem c2_asa_adjustment_range_witness :
    asaAdjustment 0 = 0.5 ∧ 0.5 ≤ asaAdjustment 0 :=
  ⟨(c2_asa_adjustment_range 0 (by norm_num)).2.2.1,
   (c2_asa_adjustment_range 0 (by norm_num)).2.2.2.2.1⟩

/-- C3: `validateMagConfig` fails exactly when `writeDelay` is outside
`[1,200]` ms, or `readDelay` is outside `[1,50]` ms, or `scale` is not
`0` or `1`, or `mode` is not in the valid-mode set, or the sample-rate
divider exceeds `15`; and when it fails, the pipeline makes no transport
call (the event trace is empty). -/
theorem c3_config_error_iff (cfg : Config) (t : Transport) :
    (isConfigError (validateMagConfig cfg) = true ↔
      (¬(1 ≤ cfg.magWriteDelayMS ∧ cfg.magWriteDelayMS ≤ 200)
       ∨ ¬(1 ≤ cfg.magReadDelayMS ∧ cfg.magReadDelayMS ≤ 50)
       ∨ ¬(cfg.magScale = 0 ∨ cfg.magScale = 1)
       ∨ cfg.magMode ∉ validModes
       ∨ 15 < cfg.magSampleRateDivider))
    ∧ (isConfigError (validateMagConfig cfg) = true → (initializeWithConfig t cfg).1 = []) := by
  constructor
  · by_cases hmem : cfg.magMode ∈ validModes <;>
      · unfold validateMagConfig isConfigError
        split_ifs <;> simp_all <;> omega
  · intro h
    unfold initializeWithConfig
    cases hv : validateMagConfig cfg with
    | error e => simp
    | ok u => rw [hv] at h; simp [isConfigError] at h

/-- Witness for C3: `sampleRateDivider = 16` is rejected and the mock
transport records zero calls (spec §8, scenario C). -/
theorem c3_config_error_iff_witness :
    isConfigError (validateMagConfig ⟨50, 2, 1, 6, 16, -1, -1, false⟩) = true
    ∧ (initializeWithConfig (mockTransport []) ⟨50, 2, 1, 6, 16, -1, -1, false⟩).1 = [] := by
  have h := c3_config_error_iff ⟨50, 2, 1, 6, 16, -1, -1, false⟩ (mockTransport [])
  have he : isConfigError (validateMagConfig ⟨50, 2, 1, 6, 16, -1, -1, false⟩) = true :=
    h.1.mpr (Or.inr (Or.inr (Or.inr (Or.inr (by norm_num)))))
  exact ⟨he, h.2 he⟩

/-- C4 counterexample: the standard configuration with
`writeDelay = 10 ms` (in `[1ms, 50ms)`), all other fields valid and no
debug override present is accepted by `validateMagConfig` — it does
not yield a `ConfigError`, contradicting the claim. -/
theorem c4_counterexample_low_delay_ok :
    (1 ≤ (10 : Int) ∧ (10 : Int) < 50)
    ∧ validateMagConfig ⟨10, 2, 1, 6, 1, -1, -1, false⟩ = Except.ok ()
    ∧ magWriteDelayWarning ⟨10, 2, 1, 6, 1, -1, -1, false⟩ = true :=
  ⟨by norm_num, rfl, rfl⟩

/-- C4 amended: for every standard configuration with `writeDelay` in
`[1ms, 50ms)` and all other fields valid, `validateMagConfig` accepts
the configuration and emits the non-fatal sub-50ms warning (the §4.1
behaviour); it does not return `ConfigError`. -/
theorem c4_low_delay_warns_not_errors (cfg : Config)
    (h1 : 1 ≤ cfg.magWriteDelayMS) (h2 : cfg.magWriteDelayMS < 50)
    (h3 : 1 ≤ cfg.magReadDelayMS) (h4 : cfg.magReadDelayMS ≤ 50)
    (h5 : cfg.magScale ≤ 1) (h6 : cfg.magMode ∈ validModes)
    (h7 : cfg.magSampleRateDivider ≤ 15) :
    validateMagConfig cfg = Except.ok () ∧ magWriteDelayWarning cfg = true := by
  constructor
  · unfold validateMagConfig
    rw [if_neg (by omega), if_neg (by omega), if_neg (by omega), if_neg (by simp [h6]),
      if_neg (by omega)]
  · unfold magWriteDelayWarning
    simp
    omega

/-- Witness for the amended C4 at `writeDelay = 10 ms`. -/
theorem c4_low_delay_warns_not_errors_witness :
    validateMagConfig ⟨10, 2, 1, 6, 1, -1, -1, false⟩ = Except.ok ()
    ∧ magWriteDelayWarning ⟨10, 2, 1, 6, 1, -1, -1, false⟩ = true :=
  c4_low_delay_warns_not_errors ⟨10, 2, 1, 6, 1, -1, -1, false⟩ (by norm_num) (by norm_num)
    (by norm_num) (by norm_num) (by norm_num) (by decide) (by norm_num)

/-- C5: for every present (positive) debug override,
`validateRegisterDebugMagConfig` fails when the write override is
outside `[1,500]` ms or the read override is outside `[1,100]` ms; a
write override in `[1ms, 50ms)` with the unsafe flag off fails closed
with the delay-floor error, while the same override with the flag on
(and a read override not exceeding its range) passes validation. -/
theorem c5_debug_override_validation (cfg : Config) :
    ((0 < cfg.registerDebugMagWriteDelay ∧
        ¬(1 ≤ cfg.registerDebugMagWriteDelay ∧ cfg.registerDebugMagWriteDelay ≤ 500)) →
      ∃ e, validateRegisterDebugMagConfig cfg = Except.error e)
    ∧ ((0 < cfg.registerDebugMagReadDelay ∧
        ¬(1 ≤ cfg.registerDebugMagReadDelay ∧ cfg.registerDebugMagReadDelay ≤ 100)) →
      ∃ e, validateRegisterDebugMagConfig cfg = Except.error e)
    ∧ ((1 ≤ cfg.registerDebugMagWriteDelay ∧ cfg.registerDebugMagWriteDelay < 50 ∧
        cfg.registerDebugMagUnsafeMode = false) →
      validateRegisterDebugMagConfig cfg = Except.error ConfigError.debugWriteDelayFloor)
    ∧ ((1 ≤ cfg.registerDebugMagWriteDelay ∧ cfg.registerDebugMagWriteDelay < 50 ∧
        cfg.registerDebugMagUnsafeMode = true ∧ cfg.registerDebugMagReadDelay ≤ 100) →
      validateRegisterDebugMagConfig cfg = Except.ok ()) := by
  refine ⟨?_, ?_, ?_, ?_⟩
  · intro h
    unfold validateRegisterDebugMagConfig
    rw [if_pos h.1, if_pos (by omega)]
    exact ⟨_, rfl⟩
  · intro h
    unfold validateRegisterDebugMagConfig validateRegisterDebugMagReadPart
    split_ifs <;> first | exact ⟨_, rfl⟩ | omega
  · intro h
    unfold validateRegisterDebugMagConfig
    rw [if_pos (by omega), if_neg (by omega), if_pos ⟨h.2.1, h.2.2⟩]
  · intro h
    unfold validateRegisterDebugMagConfig validateRegisterDebugMagReadPart
    rw [if_pos (by omega), if_neg (by omega), if_neg (by simp [h.2.2.1])]
    split_ifs with b1 b2
    · omega
    · rfl
    · rfl

/-- Witness for C5: a 10 ms write override is rejected with the
delay-floor error when the unsafe flag is off, and accepted when it is
on. -/
theorem c5_debug_override_validation_witness :
    validateRegisterDebugMagConfig ⟨50, 2, 1, 6, 1, 10, -1, false⟩ =
      Except.error ConfigError.debugWriteDelayFloor
    ∧ validateRegisterDebugMagConfig ⟨50, 2, 1, 6, 1, 10, -1, true⟩ = Except.ok () :=
  ⟨(c5_debug_override_validation ⟨50, 2, 1, 6, 1, 10, -1, false⟩).2.2.1
      ⟨by norm_num, by norm_num, rfl⟩,
   (c5_debug_override_validation ⟨50, 2, 1, 6, 1, 10, -1, true⟩).2.2.2
      ⟨by norm_num, by norm_num, rfl, by norm_num⟩⟩

/-- C6: for every valid `scale` and `mode`, the SetMode step (sixth step
of the sequence) writes exactly the byte `(scale << 4) | mode`, which
equals `scale * 16 + mode`, to the control register, and in the event
trace that write is immediately followed by a `writeDelay` wait. -/
theorem c6_set_mode_byte (wd rd scale mode srd : Nat) (asa : List Nat)
    (h1 : 1 ≤ wd) (h2 : 1 ≤ rd) (hs : scale ≤ 1) (hm : mode ∈ validModes) :
    (initSteps ⟨wd, rd, scale, mode, srd⟩)[5]? =
      some ⟨SeqState.SetMode, StepAction.writeReg regMagCNTL (scale * 16 + mode),
            WaitKind.write, wd⟩
    ∧ ((initMag (mockTransport asa) ⟨wd, rd, scale, mode, srd⟩).1)[10]? =
      some (Event.write regMagCNTL (scale * 16 + mode))
    ∧ ((initMag (mockTransport asa) ⟨wd, rd, scale, mode, srd⟩).1)[11]? =
      some (Event.wait WaitKind.write wd) := by
  have hv := validateMagParams_ok wd rd scale mode h1 h2 hs hm
  have hlor : Nat.lor (scale <<< 4) mode = scale * 16 + mode := by
    interval_cases scale <;> fin_cases hm <;> rfl
  refine ⟨?_, ?_, ?_⟩ <;>
    simp [initMag, hv, runSteps, initSteps, mockTransport, hlor]

/-- Witness for C6 at `scale = 1`, `mode = 0x06`: the written byte is
`0x16`. -/
theorem c6_set_mode_byte_witness :
    ((initMag (mockTransport []) ⟨50, 2, 1, 6, 1⟩).1)[10]? =
      some (Event.write regMagCNTL 22) :=
  (c6_set_mode_byte 50 2 1 6 1 [] (by norm_num) (by norm_num) (by norm_num) (by decide)).2.1

/-- C7 counterexample: for the gain-table entry `820` LSB/Gauss (gain
code 2, X/Y axes) and the in-range raw count `32767`, the exact scaled
value `32767000/820 ≈ 39959.76` lies outside the `int16` output range,
so the narrowing overflows: no narrowed output can equal the exact
scaled value, which contradicts the claim. -/
theorem c7_counterexample_gain_820_overflow :
    (820 : Int) ∈ gainXY
    ∧ (-32768 ≤ (32767 : Int) ∧ (32767 : Int) ≤ 32767)
    ∧ ¬ fitsInt16 (countsToMicroTesla10Exact 32767 820) := by
  refine ⟨by norm_num [gainXY], by norm_num, ?_⟩
  intro hf
  have hb := hf.2
  norm_num [countsToMicroTesla10Exact] at hb

/-- C7 amended: the intermediate `float64` computation has ample
headroom, but the exact scaled value fits the `int16` output for the
whole signed 16-bit raw range only for gain constants of at least
1000 LSB/Gauss — that is, for the table entries 1370 and 1090 (X/Y,
gain codes 0–1) and 1330 (Z, gain code 0); for every other table entry
(every entry below 1000 LSB/Gauss, on either axis) the exact scaled
value exceeds the `int16` range at the extreme raw count 32767, so the
narrowing overflows. -/
theorem c7_scaled_value_fits_for_high_gain (counts lsb : Int)
    (hc1 : -32768 ≤ counts) (hc2 : counts ≤ 32767) (hl : 1000 ≤ lsb) :
    fitsInt16 (countsToMicroTesla10Exact counts lsb)
    ∧ ((1370 : Int) ∈ gainXY ∧ (1090 : Int) ∈ gainXY ∧ (1330 : Int) ∈ gainZ)
    ∧ (∀ g ∈ gainXY, g < 1000 → ¬ fitsInt16 (countsToMicroTesla10Exact 32767 g))
    ∧ (∀ g ∈ gainZ, g < 1000 → ¬ fitsInt16 (countsToMicroTesla10Exact 32767 g)) := by
  have hl0 : (0 : ℚ) < (lsb : ℚ) := by exact_mod_cast (by omega : (0 : Int) < lsb)
  have hlq : (1000 : ℚ) ≤ (lsb : ℚ) := by exact_mod_cast hl
  have hc1q : (-32768 : ℚ) ≤ (counts : ℚ) := by exact_mod_cast hc1
  have hc2q : (counts : ℚ) ≤ 32767 := by exact_mod_cast hc2
  refine ⟨⟨?_, ?_⟩, ⟨by norm_num [gainXY], by norm_num [gainXY], by norm_num [gainZ]⟩, ?_, ?_⟩
  · unfold countsToMicroTesla10Exact
    rw [div_mul_eq_mul_div, lt_div_iff₀ hl0]
    nlinarith
  · unfold countsToMicroTesla10Exact
    rw [div_mul_eq_mul_div, div_lt_iff₀ hl0]
    nlinarith
  · intro g hg hglt
    fin_cases hg <;>
      first
        | (exfalso; omega)
        | (intro hf
           have hb := hf.2
           norm_num [countsToMicroTesla10Exact] at hb)
  · intro g hg hglt
    fin_cases hg <;>
      first
        | (exfalso; omega)
        | (intro hf
           have hb := hf.2
           norm_num [countsToMicroTesla10Exact] at hb)

/-- Witness for the amended C7 at `counts = 32767`, `lsb = 1090` (the
default gain code). -/
theorem c7_scaled_value_fits_for_high_gain_witness :
    fitsInt16 (countsToMicroTesla10Exact 32767 1090) :=
  (c7_scaled_value_fits_for_high_gain 32767 1090 (by norm_num) (by norm_num) (by norm_num)).1

/-- C8: a raw count of 0 scales to exactly 0 on any axis, for every
calibration value and every gain constant — in the spec's scaling
engine, in the HMC5983 per-axis conversion, and for a whole zero raw
sample of `Sense`. -/
theorem c8_zero_scales_to_zero :
    (∀ cal gain : ℚ, scaledAxisSpec 0 cal gain = 0)
    ∧ (∀ lsb : Int, countsToMicroTesla10Exact 0 lsb = 0)
    ∧ (∀ d : HDev, senseExact (0, 0, 0) d = (0, 0, 0)) := by
  refine ⟨?_, ?_, ?_⟩ <;>
    intros <;>
    simp [scaledAxisSpec, countsToMicroTesla10Exact, senseExact]

/-- C9: `SenseRaw` reassembles the device's X,Z,Y wire order into X,Y,Z
return order: for every 6-byte data block, the returned X is the
big-endian signed 16-bit value of bytes 0–1, the returned Z that of
bytes 2–3, and the returned Y that of bytes 4–5. -/
theorem c9_sense_raw_byte_order (d0 d1 d2 d3 d4 d5 : Fin 256) :
    senseRawDecode [d0.val, d1.val, d2.val, d3.val, d4.val, d5.val] =
      (int16OfBytesBE d0.val d1.val, int16OfBytesBE d4.val d5.val,
       int16OfBytesBE d2.val d3.val)
    ∧ senseRaw (mockTransport [d0.val, d1.val, d2.val, d3.val, d4.val, d5.val]) =
      Except.ok (int16OfBytesBE d0.val d1.val, int16OfBytesBE d4.val d5.val,
                 int16OfBytesBE d2.val d3.val) := by
  constructor
  · simp [senseRawDecode, beInt16_eq]
  · simp [senseRaw, mockTransport, senseRawDecode, beInt16_eq, Except.map]

/-- C10: a `GainCode` outside `[0,7]` does not make `New` fail; the
constructor behaves exactly as with an explicit `GainCode` of `1`
(`lsbPerGaXY = 1090`, `lsbPerGaZ = 980`), on any transport — the two
runs are indistinguishable. -/
theorem c10_gain_fallback (t : Transport) (opts : Opts)
    (h : opts.gainCode < 0 ∨ 7 < opts.gainCode) :
    newDev t opts = newDev t { opts with gainCode := 1 }
    ∧ (newDev (mockTransport []) opts).2 =
      Except.ok ⟨if opts.addr = 0 then hmcDefaultAddr else opts.addr, 1090, 980⟩ := by
  have hg : resolveGainCode opts.gainCode = 1 := by
    unfold resolveGainCode
    rw [if_pos h]
  have hg1 : resolveGainCode 1 = 1 := rfl
  constructor
  · simp [newDev, hg, hg1]
  · simp [newDev, hg, mockTransport, gainXY, gainZ]

/-- Witness for C10 at `GainCode = 9`. -/
theorem c10_gain_fallback_witness :
    newDev (mockTransport []) ⟨0, 0, 9, "continuous", 0⟩ =
      newDev (mockTransport []) ⟨0, 0, 1, "continuous", 0⟩
    ∧ (newDev (mockTransport []) ⟨0, 0, 9, "continuous", 0⟩).2 =
      Except.ok ⟨hmcDefaultAddr, 1090, 980⟩ :=
  c10_gain_fallback (mockTransport []) ⟨0, 0, 9, "continuous", 0⟩ (by norm_num)

end Devices
